import Mathlib

/-!
Verification of the `harvest_news` repository (src/main.py).

The repository is a single polling script built around the class
`NewsHarvester`.  The parts with behavioural content are:

* `NewsHarvester.item_is_fresh` — a 2-slot deduplication window over
  permalink strings, implemented on a Python list via
  `insert(0, link)` / `pop()`;
* `NewsHarvester.rss_cutter` — truncation of the raw RSS text at the
  first occurrence of a delimiter substring, appending fixed closing
  markup (and, on a missing delimiter, returning the error message
  itself as ordinary text);
* the seeding of the window in `NewsHarvester.__init__` from the two
  most recently persisted database rows;
* the body of the poll loop in `NewsHarvester.run`, which inserts a row
  exactly when the freshness check succeeds.

The embedding below models Python strings in `rss_cutter` as `List Char`
(so that index arithmetic on occurrences is exact), database rows as
`List String` in column order, and the window as a `List String`
mirroring the Python list operations.
-/

namespace HarvestNews

/-- Embedding of `NewsHarvester.item_is_fresh` (src/main.py lines 135-152).
The window `two_last_news_link` is the Python list; the method returns
`False` and leaves the list untouched when `news_link in two_last_news_link`,
otherwise it runs `insert(0, news_link)` followed by `pop()` (which removes
the last element) and returns `True`.  We return the result together with
the updated window. -/
def item_is_fresh (two_last_news_link : List String) (news_link : String) :
    Bool × List String :=
  if news_link ∈ two_last_news_link then
    (false, two_last_news_link)
  else
    (true, (news_link :: two_last_news_link).dropLast)

/-- Embedding of Python `str.index` on `List Char`: the smallest index at
which `pat` occurs in the text, or `none` when it does not occur
(Python raises `ValueError` there). -/
def strIndex : List Char → List Char → Option Nat
  | [], pat => if pat.isEmpty then some 0 else none
  | c :: rest, pat =>
    if pat.isPrefixOf (c :: rest) then some 0
    else (strIndex rest pat).map (fun i => i + 1)

/-- The fixed closing markup appended by `rss_cutter` (src/main.py line 131). -/
def closingMarkup : List Char := "</channel></rss>".toList

/-- The error message built in `rss_cutter` when the delimiter is absent
(src/main.py lines 126-127); the f-string interpolates `substr_to_find`. -/
def errText (substr_to_find : List Char) : List Char :=
  "ОШИБКА! Подстрока \"".toList ++ substr_to_find ++
    "\" не найдена в передаваемом тексте rss_text в методе rss_cutter".toList

/-- Embedding of the static method `NewsHarvester.rss_cutter`
(src/main.py lines 123-131): on success it returns
`rss_text[:substr_index] + substr_to_find + '</channel></rss>'`; when
`str.index` raises `ValueError` it returns the error message itself as
ordinary text (the same type as a successful result). -/
def rss_cutter (rss_text substr_to_find : List Char) : List Char :=
  match strIndex rss_text substr_to_find with
  | none => errText substr_to_find
  | some substr_index =>
      rss_text.take substr_index ++ substr_to_find ++ closingMarkup

/-- Number of occurrences of `pat` in `text`: the number of positions at
which `pat` is a prefix of the remaining text.  Used to state the
"contains the delimiter exactly once" hypothesis. -/
def countOccurrences (text pat : List Char) : Nat :=
  ((List.range (text.length + 1)).filter
    (fun i => pat.isPrefixOf (text.drop i))).length

/-- Modelled from the spec: the feed's XML parsing library (`xmltodict`) is
an external collaborator, not part of the repository, so "parses
successfully as a well-formed document" is modelled as: the tags appearing
in the text are properly nested, every closing tag matching the most recent
unclosed opening tag, with no unclosed or unmatched tag left over.
Scanner state while walking the character list. -/
inductive ScanState where
  | outside : ScanState
  | seenLt : ScanState
  | inTag : Bool → List Char → ScanState

/-- Modelled from the spec (see `ScanState`): extract the sequence of tags
of a document as `(isClosing, name)` pairs, ignoring text between tags. -/
def scanTags : List Char → ScanState → List (Bool × List Char)
  | [], _ => []
  | c :: rest, ScanState.outside =>
      if c = '<' then scanTags rest ScanState.seenLt
      else scanTags rest ScanState.outside
  | c :: rest, ScanState.seenLt =>
      if c = '/' then scanTags rest (ScanState.inTag true [])
      else scanTags rest (ScanState.inTag false [c])
  | c :: rest, ScanState.inTag isClosing acc =>
      if c = '>' then (isClosing, acc.reverse) :: scanTags rest ScanState.outside
      else scanTags rest (ScanState.inTag isClosing (c :: acc))

/-- Modelled from the spec (see `ScanState`): check that a tag sequence is
properly nested against a stack of currently open tag names. -/
def checkBalanced : List (Bool × List Char) → List (List Char) → Bool
  | [], stack => stack.isEmpty
  | (false, nm) :: ts, stack => checkBalanced ts (nm :: stack)
  | (true, nm) :: ts, stack =>
      match stack with
      | [] => false
      | top :: rest => top == nm && checkBalanced ts rest

/-- Modelled from the spec: a document is syntactically well formed when
its tags are properly nested (see `ScanState`). -/
def wellFormedXml (doc : List Char) : Bool :=
  checkBalanced (scanTags doc ScanState.outside) []

/-- Column names of the `news` table created in `NewsHarvester.__init__`
(src/main.py lines 68-77), in declaration order; `cursor.description`
yields them in this order for `SELECT * FROM news`. -/
def newsColumns : List String :=
  ["id", "author", "category", "description", "img_link", "link", "pubDate", "title"]

/-- Embedding of Python `list.index` on column names: the index of the
first occurrence of `name`, or `none` when absent (Python raises
`ValueError` there, caught in `__init__`). -/
def findColumnIndex (name : String) : List String → Option Nat
  | [] => none
  | c :: cs =>
      if c = name then some 0
      else (findColumnIndex name cs).map (fun i => i + 1)

/-- Embedding of `results[i][k]` on the fetched rows: `none` exactly when
Python would raise `IndexError` (row `i` missing, or row shorter than `k`). -/
def getCell (results : List (List String)) (i k : Nat) : Option String :=
  (results.get? i).bind (fun row => row.get? k)

/-- Embedding of the window-seeding portion of `NewsHarvester.__init__`
(src/main.py lines 80-98).  The window starts as `['', '']`; if the
`link` column is found, slot 0 is assigned from `results[0]` and then
slot 1 from `results[1]`, each raising `IndexError` (caught, non-fatal)
when missing, so an exception after the first assignment keeps it.
The boolean records whether a degraded-startup message was printed. -/
def seedWindow (cols : List String) (results : List (List String)) :
    List String × Bool :=
  match findColumnIndex "link" cols with
  | none => (["", ""], true)
  | some k =>
      match getCell results 0 k with
      | none => (["", ""], true)
      | some x =>
          match getCell results 1 k with
          | none => ((["", ""].set 0 x), true)
          | some y => (((["", ""].set 0 x).set 1 y), false)

/-- Embedding of `SELECT * FROM news ORDER BY id DESC` over a store whose
rows are kept in insertion order (ids are assigned by auto-increment, so
descending id order is reverse insertion order). -/
def selectNewsDesc (store : List (List String)) : List (List String) :=
  store.reverse

/-- Embedding of the whole seeding pipeline of `__init__`: select rows in
descending id order, `fetchmany(2)`, then seed the window. -/
def initSeed (store : List (List String)) : List String × Bool :=
  seedWindow newsColumns ((selectNewsDesc store).take 2)

/-- The transient NewsItem parsed from the feed (src/main.py lines 185-190):
author, category, description, image URL, permalink, publication date,
title. -/
structure NewsItem where
  author : String
  category : String
  descr : String
  img_link : String
  link : String
  pubDate : String
  title : String

/-- The row inserted by the `INSERT INTO news(...)` statement
(src/main.py lines 191-194), as a full row of the `news` table:
auto-increment id first, then the seven text columns in table order. -/
def newsRow (rowId : Nat) (it : NewsItem) : List String :=
  [toString rowId, it.author, it.category, it.descr, it.img_link,
    it.link, it.pubDate, it.title]

/-- Embedding of one poll-loop cycle of `NewsHarvester.run` after parsing
(src/main.py lines 182-204): run the freshness check on the item's
permalink; if fresh, insert one new row holding the item's fields (the
auto-increment id is the next free one); if duplicate, leave the store
untouched.  Returns the new window and the new store. -/
def runCycle (w : List String) (store : List (List String)) (it : NewsItem) :
    List String × List (List String) :=
  let r := item_is_fresh w it.link
  if r.1 then (r.2, store ++ [newsRow (store.length + 1) it])
  else (r.2, store)

/-- Fold a sequence of freshness checks over a starting window, keeping
only the window (used to describe the reachable window states). -/
def runLinks (w : List String) (links : List String) : List String :=
  links.foldl (fun cur l => (item_is_fresh cur l).2) w

/-- A concrete database row with permalink "X" (used as witness data). -/
def seedRowX : List String :=
  ["1", "au", "cat", "de", "img", "X", "pd", "ti"]

/-- A concrete database row with permalink "Y" (used as witness data). -/
def seedRowY : List String :=
  ["2", "au", "cat", "de", "img", "Y", "pd", "ti"]

/-- A concrete parsed item (used as witness data). -/
def freshItem : NewsItem :=
  ⟨"au", "cat", "de", "img", "https://example.com/1", "pd", "ti"⟩

/-- The invariant maintained on the window by the freshness check: the
window has exactly two slots, and they differ unless both are empty. -/
def windowInv (w : List String) : Prop :=
  ∃ a b, w = [a, b] ∧ (a = b → a = "" ∧ b = "")

/-! ## Theorems -/

/-- C1: for every 2-slot window state `[a, b]` and every permalink distinct
from both tracked values, `item_is_fresh` returns `true`, inserts the new
permalink at position 0 and discards the element previously in the last
slot (the oldest), leaving the window `[l, a]` — the two most recently
classified-fresh permalinks, most-recent first. -/
theorem fresh_insert_evicts_oldest (a b l : String)
    (h1 : l ≠ a) (h2 : l ≠ b) :
    item_is_fresh [a, b] l = (true, [l, a]) := by
  simp [item_is_fresh, h1, h2, List.dropLast]

/-- Witness for C1 at the concrete input `["a", "b"]`, `"c"`. -/
theorem fresh_insert_evicts_oldest_witness :
    ("c" : String) ≠ "a" ∧ ("c" : String) ≠ "b" ∧
      item_is_fresh ["a", "b"] "c" = (true, ["c", "a"]) :=
  ⟨by decide, by decide,
    fresh_insert_evicts_oldest "a" "b" "c" (by decide) (by decide)⟩

/-- C2: for every 2-slot window state `[a, b]` and every permalink equal to
either tracked value, `item_is_fresh` returns `false` and leaves both
slots exactly as they were. -/
theorem duplicate_leaves_window_unchanged (a b l : String)
    (h : l = a ∨ l = b) :
    item_is_fresh [a, b] l = (false, [a, b]) := by
  have hm : l ∈ [a, b] := by
    rcases h with h | h <;> simp [h]
  simp [item_is_fresh, hm]

/-- Witness for C2 at the concrete input `["a", "b"]`, `"b"`. -/
theorem duplicate_leaves_window_unchanged_witness :
    (("b" : String) = "a" ∨ ("b" : String) = "b") ∧
      item_is_fresh ["a", "b"] "b" = (false, ["a", "b"]) :=
  ⟨by decide, duplicate_leaves_window_unchanged "a" "b" "b" (by decide)⟩

/-- C7: the recent-links window always has size exactly 2: the window
produced by construction (seeding from any column list and any fetched
rows) has length 2, and every call to `item_is_fresh` preserves the
window's length, whether it returns `true` or `false`. -/
theorem window_size_always_two :
    (∀ cols results, ((seedWindow cols results).1).length = 2) ∧
    (∀ w l, ((item_is_fresh w l).2).length = w.length) := by
  constructor
  · intro cols results
    unfold seedWindow
    split
    · rfl
    split
    · rfl
    split
    · rfl
    · rfl
  · intro w l
    by_cases h : l ∈ w
    · simp [item_is_fresh, h]
    · simp [item_is_fresh, h]

/-- C10: whenever a window slot holds the empty string, classifying the
empty-string permalink returns `false` and leaves the window unchanged,
and consequently a poll cycle whose item has the empty permalink never
inserts a row into the store. -/
theorem empty_link_always_duplicate (w : List String) (h : "" ∈ w) :
    item_is_fresh w "" = (false, w) ∧
      ∀ store it, it.link = "" → (runCycle w store it).2 = store := by
  have hm : item_is_fresh w "" = (false, w) := by
    simp [item_is_fresh, h]
  refine ⟨hm, ?_⟩
  intro store it hl
  simp [runCycle, hl, hm]

/-- Witness for C10 at the concrete cold-start window `["", ""]`. -/
theorem empty_link_always_duplicate_witness :
    ("" ∈ (["", ""] : List String)) ∧
      item_is_fresh ["", ""] "" = (false, ["", ""]) :=
  ⟨by decide, (empty_link_always_duplicate ["", ""] (by decide)).1⟩

/-- Helper: the `link` column of the `news` table sits at index 5. -/
theorem link_column_index : findColumnIndex "link" newsColumns = some 5 := by
  decide

/-- C5: construction seeds the window from the two most recently persisted
rows in descending id order, taking their `link` column (index 5), so a
store holding rows with permalinks `x` then `y` (with `y` more recent)
yields the window `[y, x]` with no degraded report; an empty store leaves
`["", ""]`, a one-row store fills only slot 0, and a schema without a
`link` column leaves `["", ""]` — in each degraded case a message is
reported and construction still succeeds (the seeding is total). -/
theorem init_seed_spec (x y : String) (rx ry : List String)
    (hx : rx.get? 5 = some x) (hy : ry.get? 5 = some y) :
    initSeed [rx, ry] = ([y, x], false) ∧
      initSeed [] = (["", ""], true) ∧
      initSeed [ry] = ([y, ""], true) ∧
      ∀ cols results, findColumnIndex "link" cols = none →
        seedWindow cols results = (["", ""], true) := by
  simp only [List.get?_eq_getElem?] at hx hy
  refine ⟨?_, ?_, ?_, ?_⟩
  · simp [initSeed, selectNewsDesc, seedWindow, link_column_index, getCell,
      hx, hy]
  · rfl
  · simp [initSeed, selectNewsDesc, seedWindow, link_column_index, getCell,
      hy]
  · intro cols results hnone
    simp [seedWindow, hnone]

/-- Witness for C5: a store holding `seedRowX` then `seedRowY` (so "Y" is
the more recent permalink) seeds the window to `["Y", "X"]`. -/
theorem init_seed_spec_witness :
    seedRowX.get? 5 = some "X" ∧ seedRowY.get? 5 = some "Y" ∧
      initSeed [seedRowX, seedRowY] = (["Y", "X"], false) :=
  ⟨by decide, by decide,
    (init_seed_spec "X" "Y" seedRowX seedRowY (by decide) (by decide)).1⟩

/-- C6: from the initial window `["", ""]`, classifying three pairwise
distinct permalinks in order, each classified fresh, evicts the first from
the size-2 window, so resubmitting it is classified fresh again; and the
concrete trace A, B, B, A, C, A produces fresh, fresh, duplicate,
duplicate, fresh, fresh with exactly the intermediate windows
`["A",""]`, `["B","A"]`, `["B","A"]`, `["B","A"]`, `["C","B"]`,
`["A","C"]`. -/
theorem eviction_after_three_distinct (l1 l2 l3 : String)
    (h12 : l1 ≠ l2) (h13 : l1 ≠ l3)
    (f1 : (item_is_fresh ["", ""] l1).1 = true)
    (f2 : (item_is_fresh (item_is_fresh ["", ""] l1).2 l2).1 = true)
    (f3 : (item_is_fresh (item_is_fresh (item_is_fresh ["", ""] l1).2 l2).2
      l3).1 = true) :
    (item_is_fresh
      (item_is_fresh (item_is_fresh (item_is_fresh ["", ""] l1).2 l2).2
        l3).2 l1).1 = true ∧
      item_is_fresh ["", ""] "A" = (true, ["A", ""]) ∧
      item_is_fresh ["A", ""] "B" = (true, ["B", "A"]) ∧
      item_is_fresh ["B", "A"] "B" = (false, ["B", "A"]) ∧
      item_is_fresh ["B", "A"] "A" = (false, ["B", "A"]) ∧
      item_is_fresh ["B", "A"] "C" = (true, ["C", "B"]) ∧
      item_is_fresh ["C", "B"] "A" = (true, ["A", "C"]) := by
  have m1 : l1 ∉ (["", ""] : List String) := by
    intro hm
    simp [item_is_fresh, hm] at f1
  have w1 : (item_is_fresh ["", ""] l1).2 = [l1, ""] := by
    simp [item_is_fresh, m1, List.dropLast]
  rw [w1] at f2 f3
  have m2 : l2 ∉ ([l1, ""] : List String) := by
    intro hm
    simp [item_is_fresh, hm] at f2
  have w2 : (item_is_fresh [l1, ""] l2).2 = [l2, l1] := by
    simp [item_is_fresh, m2, List.dropLast]
  rw [w2] at f3
  have m3 : l3 ∉ ([l2, l1] : List String) := by
    intro hm
    simp [item_is_fresh, hm] at f3
  have w3 : (item_is_fresh [l2, l1] l3).2 = [l3, l2] := by
    simp [item_is_fresh, m3, List.dropLast]
  have m4 : l1 ∉ ([l3, l2] : List String) := by
    simp [h12, h13]
  refine ⟨?_, by decide, by decide, by decide, by decide, by decide,
    by decide⟩
  rw [w1, w2, w3]
  simp [item_is_fresh, m4]

/-- Helper: one `item_is_fresh` call preserves `windowInv`. -/
theorem windowInv_step (w : List String) (l : String) (h : windowInv w) :
    windowInv ((item_is_fresh w l).2) := by
  obtain ⟨a, b, hw, hab⟩ := h
  subst hw
  by_cases hm : l ∈ ([a, b] : List String)
  · exact ⟨a, b, by simp [item_is_fresh, hm], hab⟩
  · refine ⟨l, a, by simp [item_is_fresh, hm, List.dropLast], ?_⟩
    intro hla
    exact (hm (by simp [hla])).elim

/-- Helper: `windowInv` holds along any sequence of freshness checks. -/
theorem runLinks_inv (links : List String) :
    ∀ w, windowInv w → windowInv (runLinks w links) := by
  induction links with
  | nil => intro w h; exact h
  | cons l ls ih =>
      intro w h
      exact ih _ (windowInv_step w l h)

/-- C9: in every window state reachable from the initial window
`["", ""]` by a sequence of `item_is_fresh` calls, the two slots are
never equal unless both are the empty string. -/
theorem reachable_window_slots_distinct (links : List String) (a b : String)
    (hw : runLinks ["", ""] links = [a, b]) (hab : a = b) :
    a = "" ∧ b = "" := by
  have h := runLinks_inv links ["", ""] ⟨"", "", rfl, fun _ => ⟨rfl, rfl⟩⟩
  rw [hw] at h
  obtain ⟨c, d, hcd, himp⟩ := h
  have hpair : a = c ∧ b = d := by simpa using hcd
  obtain ⟨hac, hbd⟩ := hpair
  subst hac
  subst hbd
  exact himp hab

/-- Witness for C9 at the empty call sequence (window still `["", ""]`). -/
theorem reachable_window_slots_distinct_witness :
    ("" : String) = "" ∧ ("" : String) = "" :=
  reachable_window_slots_distinct [] "" "" rfl rfl

/-- C8: in a poll cycle, a new row holding exactly the item's fields is
appended to the store if and only if the freshness check classified the
permalink as fresh; on a duplicate the store is untouched; and in either
case every existing row keeps its position and value and no row is
deleted (the store length never shrinks). -/
theorem run_cycle_insert_iff_fresh (w : List String)
    (store : List (List String)) (it : NewsItem) :
    ((item_is_fresh w it.link).1 = true →
      (runCycle w store it).2 = store ++ [newsRow (store.length + 1) it]) ∧
      ((item_is_fresh w it.link).1 = false →
        (runCycle w store it).2 = store) ∧
      (∀ i, i < store.length →
        ((runCycle w store it).2)[i]? = store[i]?) ∧
      store.length ≤ ((runCycle w store it).2).length := by
  refine ⟨?_, ?_, ?_, ?_⟩
  · intro h
    simp [runCycle, h]
  · intro h
    simp [runCycle, h]
  · intro i hi
    by_cases h : (item_is_fresh w it.link).1
    · simp only [runCycle, h, if_true]
      exact List.getElem?_append_left hi
    · simp [runCycle, h]
  · by_cases h : (item_is_fresh w it.link).1
    · simp [runCycle, h]
    · simp [runCycle, h]

/-- Witness for C8 on the cold-start window and an empty store: the
fresh item is appended as the single row. -/
theorem run_cycle_insert_iff_fresh_witness :
    (item_is_fresh ["", ""] freshItem.link).1 = true ∧
      (runCycle ["", ""] [] freshItem).2 =
        [] ++ [newsRow (([] : List (List String)).length + 1) freshItem] :=
  ⟨by decide,
    (run_cycle_insert_iff_fresh ["", ""] [] freshItem).1 (by decide)⟩

/-- Helper: when `strIndex` finds `d` at position `p` in `t`, the
`d.length` characters of `t` from position `p` are exactly `d`. -/
theorem strIndex_take (t : List Char) : ∀ (d : List Char) (p : Nat),
    strIndex t d = some p → (t.drop p).take d.length = d := by
  induction t with
  | nil =>
      intro d p h
      rw [strIndex] at h
      by_cases hd : d.isEmpty
      · rw [if_pos hd] at h
        obtain rfl : (0 : Nat) = p := by exact Option.some.inj h
        have : d = [] := List.isEmpty_iff.mp hd
        subst this
        rfl
      · rw [if_neg hd] at h
        exact absurd h (by simp)
  | cons c rest ih =>
      intro d p h
      rw [strIndex] at h
      by_cases hpre : d.isPrefixOf (c :: rest)
      · rw [if_pos hpre] at h
        obtain rfl : (0 : Nat) = p := by exact Option.some.inj h
        have hp : d <+: (c :: rest) := List.isPrefixOf_iff_prefix.mp hpre
        have := List.prefix_iff_eq_take.mp hp
        simpa using this.symm
      · rw [if_neg hpre] at h
        obtain ⟨q, hq, hqp⟩ := Option.map_eq_some'.mp h
        subst hqp
        simpa using ih d q hq

/-- C3 (amended): for every text containing the delimiter exactly once,
at first-occurrence position `p`, `rss_cutter` returns the prefix of the
text up to and including that occurrence — `t.take (p + d.length)` —
concatenated with the fixed closing markup `"</channel></rss>"`. -/
theorem rss_cutter_truncates (t d : List Char) (p : Nat)
    (_hcount : countOccurrences t d = 1) (hidx : strIndex t d = some p) :
    rss_cutter t d = t.take (p + d.length) ++ closingMarkup := by
  have htake := strIndex_take t d p hidx
  unfold rss_cutter
  rw [hidx]
  show t.take p ++ d ++ closingMarkup = t.take (p + d.length) ++ closingMarkup
  rw [List.take_add, htake]

/-- Witness for C3 at the concrete text "a</item>b" and delimiter
"</item>", occurring exactly once at position 1. -/
theorem rss_cutter_truncates_witness :
    countOccurrences "a</item>b".toList "</item>".toList = 1 ∧
      strIndex "a</item>b".toList "</item>".toList = some 1 ∧
      rss_cutter "a</item>b".toList "</item>".toList =
        "a</item>b".toList.take (1 + "</item>".toList.length) ++
          closingMarkup :=
  ⟨by decide, by decide,
    rss_cutter_truncates "a</item>b".toList "</item>".toList 1
      (by decide) (by decide)⟩

/-- C3 counterexample: the text "a</item>" contains the delimiter
"</item>" exactly once, yet the truncated result
"a</item></channel></rss>" is not a well-formed document — its closing
tags match no opening tags — so the well-formedness half of the claim
fails. -/
theorem rss_cutter_result_not_wellformed :
    countOccurrences "a</item>".toList "</item>".toList = 1 ∧
      wellFormedXml (rss_cutter "a</item>".toList "</item>".toList) =
        false := by
  constructor
  · decide
  · decide

/-- C4: on the concrete input "hello" (which does not contain the
delimiter "</item>"), `rss_cutter` does not signal a distinguishable
error: it returns the error message itself as a value of the very same
type as a successful truncation — ordinary document text. -/
theorem rss_cutter_missing_delimiter_returns_text :
    rss_cutter "hello".toList "</item>".toList =
      errText "</item>".toList := by
  rfl

/-- Witness for C6 at the concrete permalinks "A", "B", "C". -/
theorem eviction_after_three_distinct_witness :
    ("A" : String) ≠ "B" ∧ ("A" : String) ≠ "C" ∧
      (item_is_fresh
        (item_is_fresh (item_is_fresh (item_is_fresh ["", ""] "A").2 "B").2
          "C").2 "A").1 = true :=
  ⟨by decide, by decide,
    (eviction_after_three_distinct "A" "B" "C" (by decide) (by decide)
      (by decide) (by decide) (by decide)).1⟩

end HarvestNews
